import Mathlib

/-!
Verification of the StacksFort multisig vault frontend hooks.

The development shallowly embeds the two source hooks:
* `useStacks` (src/hooks/useStacks.ts, first part): wallet user data and the
  derived current address (`testnet || mainnet || null`, with JavaScript
  falsiness for the empty string).
* `useMultisig` (src/hooks/useStacks.ts, second part): vault state, the
  `fetchVault` operation (placeholder/mock backed, stamping `Date.now()`),
  and the read-only query facade (`getTransaction`, `getSignatureCount`,
  `isReadyToExecute`, `getPendingTransactions`, `getExecutedTransactions`,
  `hasUserSigned`, `isSigner`).

React state updates are modelled as explicit state passing on a
`MultisigState` record; `Date.now()` is an explicit `now : Nat` parameter;
the sequence of `setState` calls inside `fetchVault` is modelled as a trace
of intermediate states, whose last element is the final state.
-/

/-- Wallet stx address record: `stxAddress?: { mainnet?: string; testnet?: string }`. -/
structure StxAddress where
  mainnet : Option String := none
  testnet : Option String := none
deriving DecidableEq, Repr

/-- `StacksUserProfile` from useStacks.ts: `stxAddress` is optional. -/
structure StacksUserProfile where
  stxAddress : Option StxAddress := none
deriving DecidableEq, Repr

/-- `StacksUserData` from useStacks.ts: `profile` is optional. -/
structure StacksUserData where
  profile : Option StacksUserProfile := none
deriving DecidableEq, Repr

/-- JavaScript `a || b` on `string | undefined` values: an absent value and the
empty string are falsy and fall through to `b`. -/
def jsOr (a b : Option String) : Option String :=
  match a with
  | none => b
  | some s => if s = "" then b else some s

/-- The `address` memo of `useStacks`:
`userData?.profile?.stxAddress` guard, then
`testnet || mainnet || null`. -/
def stacksAddress (userData : Option StacksUserData) : Option String :=
  match userData with
  | none => none
  | some ud =>
    match ud.profile with
    | none => none
    | some p =>
      match p.stxAddress with
      | none => none
      | some sa => jsOr sa.testnet (jsOr sa.mainnet none)

/-- `MultisigSigner` from useStacks.ts. -/
structure MultisigSigner where
  address : String
  hasSigned : Bool
deriving DecidableEq, Repr

/-- `TransactionStatus` union type from useStacks.ts. -/
inductive TransactionStatus where
  | pending
  | signed
  | readyToExecute
  | executed
  | failed
deriving DecidableEq, Repr

/-- The `type` field union `"stx-transfer" | "token-transfer"`. -/
inductive TransactionType where
  | stxTransfer
  | tokenTransfer
deriving DecidableEq, Repr

/-- `MultisigTransaction` from useStacks.ts. `timestamp` is the `Date.now()`
millisecond count. -/
structure MultisigTransaction where
  id : String
  type : TransactionType
  amount : String
  recipient : String
  tokenContract : Option String := none
  txHash : String
  status : TransactionStatus
  signers : List MultisigSigner
  timestamp : Nat
  executedTxId : Option String := none
deriving DecidableEq, Repr

/-- `MultisigVault` from useStacks.ts. -/
structure MultisigVault where
  address : String
  signers : List String
  threshold : Nat
  balance : String
  transactions : List MultisigTransaction
deriving DecidableEq, Repr

/-- The state of the `useMultisig` hook: the vault, loading flag and error
state variables, together with the current user address consumed from
`useStacks`. -/
structure MultisigState where
  userAddress : Option String
  vault : Option MultisigVault
  isLoading : Bool
  error : Option String
deriving DecidableEq, Repr

/-- The single transaction of the placeholder vault data built inside
`fetchVault`, with `Date.now()` as the explicit `now` argument. -/
def mockTransaction (now : Nat) : MultisigTransaction :=
  { id := "txn-001"
    type := TransactionType.stxTransfer
    amount := "1000000"
    recipient := "ST2RVXN8ZCJQY8ZCJQY8ZCJQY8ZCJQY8ZCJQY8Z"
    tokenContract := none
    txHash := "0x1234567890abcdef"
    status := TransactionStatus.pending
    signers :=
      [ { address := "SP2RVXN8ZCJQY8ZCJQY8ZCJQY8ZCJQY8ZCJQY8Z", hasSigned := true }
      , { address := "ST2RVXN8ZCJQY8ZCJQY8ZCJQY8ZCJQY8ZCJQY8Z", hasSigned := false }
      , { address := "SP3RVXN8ZCJQY8ZCJQY8ZCJQY8ZCJQY8ZCJQY8Z", hasSigned := false } ]
    timestamp := now
    executedTxId := none }

/-- The `mockVaultData` literal built inside `fetchVault` for a given
requested address. -/
def mockVaultData (vaultAddress : String) (now : Nat) : MultisigVault :=
  { address := vaultAddress
    signers :=
      [ "SP2RVXN8ZCJQY8ZCJQY8ZCJQY8ZCJQY8ZCJQY8Z"
      , "ST2RVXN8ZCJQY8ZCJQY8ZCJQY8ZCJQY8ZCJQY8Z"
      , "SP3RVXN8ZCJQY8ZCJQY8ZCJQY8ZCJQY8ZCJQY8Z" ]
    threshold := 2
    balance := "5000000000"
    transactions := [mockTransaction now] }

/-- The sequence of states produced by one `fetchVault` call, one entry per
React `set*` invocation, in program order.  An empty address
(JavaScript-falsy `!vaultAddress`) only sets the error and returns early;
otherwise the call sets `isLoading` to true, clears the error, stores the
mock vault, and finally clears `isLoading`. -/
def fetchVaultTrace (s : MultisigState) (vaultAddress : String) (now : Nat) :
    List MultisigState :=
  if vaultAddress = "" then
    [{ s with error := some "Vault address is required" }]
  else
    let s1 := { s with isLoading := true }
    let s2 := { s1 with error := none }
    let s3 := { s2 with vault := some (mockVaultData vaultAddress now) }
    let s4 := { s3 with isLoading := false }
    [s1, s2, s3, s4]

/-- The final state after a `fetchVault` call. -/
def fetchVault (s : MultisigState) (vaultAddress : String) (now : Nat) :
    MultisigState :=
  (fetchVaultTrace s vaultAddress now).getLastD s

/-- `getTransaction(txId)`: `vault?.transactions.find(tx => tx.id === txId)`. -/
def getTransaction (s : MultisigState) (txId : String) :
    Option MultisigTransaction :=
  match s.vault with
  | none => none
  | some v => v.transactions.find? (fun tx => tx.id == txId)

/-- `getSignatureCount(txId)`: 0 for an unknown transaction, otherwise the
number of signer entries with `hasSigned` true. -/
def getSignatureCount (s : MultisigState) (txId : String) : Nat :=
  match getTransaction s txId with
  | none => 0
  | some tx => (tx.signers.filter (fun sg => sg.hasSigned)).length

/-- `isReadyToExecute(txId)`: false with no vault, otherwise
`getSignatureCount(txId) >= vault.threshold`. -/
def isReadyToExecute (s : MultisigState) (txId : String) : Bool :=
  match s.vault with
  | none => false
  | some v => decide (v.threshold ≤ getSignatureCount s txId)

/-- `getPendingTransactions()`: transactions whose status is not executed. -/
def getPendingTransactions (s : MultisigState) : List MultisigTransaction :=
  match s.vault with
  | none => []
  | some v => v.transactions.filter (fun tx => !(tx.status == TransactionStatus.executed))

/-- `getExecutedTransactions()`: transactions whose status is executed. -/
def getExecutedTransactions (s : MultisigState) : List MultisigTransaction :=
  match s.vault with
  | none => []
  | some v => v.transactions.filter (fun tx => tx.status == TransactionStatus.executed)

/-- `hasUserSigned(txId)`: false when the user address is JavaScript-falsy
(null or empty), false for an unknown transaction, otherwise
`signers.find(s => s.address === userAddress)?.hasSigned ?? false`. -/
def hasUserSigned (s : MultisigState) (txId : String) : Bool :=
  match s.userAddress with
  | none => false
  | some ua =>
    if ua = "" then false
    else
      match getTransaction s txId with
      | none => false
      | some tx =>
        match tx.signers.find? (fun sg => sg.address == ua) with
        | none => false
        | some sg => sg.hasSigned

/-- `isSigner`: false when the vault is null or the user address is
JavaScript-falsy, otherwise `vault.signers.includes(userAddress)`. -/
def isSigner (s : MultisigState) : Bool :=
  match s.vault, s.userAddress with
  | some v, some ua => if ua = "" then false else v.signers.contains ua
  | _, _ => false

/-- The hook's initial state: no user, no vault, not loading, no error. -/
def initState : MultisigState :=
  { userAddress := none, vault := none, isLoading := false, error := none }

/-- A demo vault obtained from the placeholder fetch, used as a concrete
instance in witnesses. -/
def demoVault : MultisigVault := mockVaultData "SP-demo" 0

/-- A loaded hook state with the demo vault and no signed-in user. -/
def demoState : MultisigState :=
  { userAddress := none, vault := some demoVault, isLoading := false, error := none }

/-- Wallet user data whose testnet address is the first authorized signer of
the mock vault. -/
def demoUserData : Option StacksUserData :=
  some ⟨some ⟨some ⟨none, some "SP2RVXN8ZCJQY8ZCJQY8ZCJQY8ZCJQY8ZCJQY8Z"⟩⟩⟩

/-- A loaded hook state whose current user is the first authorized signer. -/
def demoSignedState : MultisigState :=
  { userAddress := some "SP2RVXN8ZCJQY8ZCJQY8ZCJQY8ZCJQY8ZCJQY8Z"
    vault := some demoVault, isLoading := false, error := none }

/-- On a list whose keys `f` are pairwise distinct, `find?` for the key of a
member returns exactly that member. -/
theorem find_key_of_mem_of_nodup {α β : Type} [BEq β] [LawfulBEq β]
    (f : α → β) (l : List α) (x : α)
    (h : x ∈ l) (hnd : (l.map f).Nodup) :
    l.find? (fun y => f y == f x) = some x := by
  induction l with
  | nil => simp at h
  | cons a l ih =>
    simp only [List.map_cons, List.nodup_cons] at hnd
    rcases List.mem_cons.mp h with rfl | hmem
    · exact List.find?_cons_of_pos _ (by simp)
    · have hne : f a ≠ f x := fun he => hnd.1 (he ▸ List.mem_map_of_mem f hmem)
      rw [List.find?_cons_of_neg _ (by simpa using hne)]
      exact ih hmem hnd.2

/-- When transaction ids are pairwise distinct, `getTransaction` at the id of
a transaction in the loaded vault returns that transaction. -/
theorem getTransaction_of_mem (s : MultisigState) (v : MultisigVault)
    (tx : MultisigTransaction) (hv : s.vault = some v)
    (htx : tx ∈ v.transactions)
    (hnd : (v.transactions.map (fun t => t.id)).Nodup) :
    getTransaction s tx.id = some tx := by
  unfold getTransaction
  rw [hv]
  exact find_key_of_mem_of_nodup (fun t => t.id) v.transactions tx htx hnd

/-- The identity layer never supplies the empty string as a current address:
JavaScript falsiness turns an empty stored address into the next fallback or
null. -/
theorem stacksAddress_ne_some_empty (userData : Option StacksUserData) :
    stacksAddress userData ≠ some "" := by
  rcases userData with _ | ⟨_ | ⟨_ | ⟨m, t⟩⟩⟩
  · simp [stacksAddress]
  · simp [stacksAddress]
  · simp [stacksAddress]
  · simp only [stacksAddress, jsOr]
    rcases t with _ | t
    · rcases m with _ | m
      · simp
      · by_cases hm : m = "" <;> simp [hm]
    · by_cases ht : t = ""
      · simp only [ht, if_pos rfl]
        rcases m with _ | m
        · simp
        · by_cases hm : m = "" <;> simp [hm]
      · simp [ht]

example : (fetchVault initState "SP-demo" 5).vault = some (mockVaultData "SP-demo" 5) := by decide
example : getSignatureCount (fetchVault initState "SP-demo" 5) "txn-001" = 1 := by decide
example : isReadyToExecute (fetchVault initState "SP-demo" 5) "txn-001" = false := by decide
example : (fetchVault initState "" 5).vault = none := by decide
example : stacksAddress (some { profile := some { stxAddress := some { mainnet := some "SPm", testnet := some "STt" } } }) = some "STt" := by decide

/-- C1: for a loaded vault and a transaction id present in its transaction
list (transaction ids being unique within a vault, per the data model),
`getSignatureCount` returns the number of signer entries with `hasSigned`
true, and `isReadyToExecute` is true exactly when that count reaches the
vault threshold. -/
theorem C1_signatureCount_and_readiness (s : MultisigState) (v : MultisigVault)
    (tx : MultisigTransaction) (hv : s.vault = some v)
    (htx : tx ∈ v.transactions)
    (hnd : (v.transactions.map (fun t => t.id)).Nodup) :
    getSignatureCount s tx.id = (tx.signers.filter (fun sg => sg.hasSigned)).length ∧
    (isReadyToExecute s tx.id = true ↔
      v.threshold ≤ (tx.signers.filter (fun sg => sg.hasSigned)).length) := by
  have hget : getTransaction s tx.id = some tx :=
    getTransaction_of_mem s v tx hv htx hnd
  have hcount :
      getSignatureCount s tx.id = (tx.signers.filter (fun sg => sg.hasSigned)).length := by
    unfold getSignatureCount
    rw [hget]
  refine ⟨hcount, ?_⟩
  unfold isReadyToExecute
  rw [hv, hcount]
  simp

/-- Witness for C1 at the demo vault and its single mock transaction. -/
theorem C1_witness :
    getSignatureCount demoState (mockTransaction 0).id
        = ((mockTransaction 0).signers.filter (fun sg => sg.hasSigned)).length ∧
    (isReadyToExecute demoState (mockTransaction 0).id = true ↔
      demoVault.threshold ≤ ((mockTransaction 0).signers.filter (fun sg => sg.hasSigned)).length) :=
  C1_signatureCount_and_readiness demoState demoVault (mockTransaction 0) rfl
    (by decide) (by decide)

/-- C2: for a loaded vault, the pending list holds exactly the transactions
whose status is not executed (so a failed transaction is included), the
executed list holds exactly those whose status is executed, and the two
lists partition the vault's transaction list. -/
theorem C2_pending_executed_partition (s : MultisigState) (v : MultisigVault)
    (hv : s.vault = some v) :
    (∀ tx, tx ∈ getPendingTransactions s ↔
      tx ∈ v.transactions ∧ tx.status ≠ TransactionStatus.executed) ∧
    (∀ tx, tx ∈ getExecutedTransactions s ↔
      tx ∈ v.transactions ∧ tx.status = TransactionStatus.executed) ∧
    (∀ tx ∈ v.transactions, tx.status = TransactionStatus.failed →
      tx ∈ getPendingTransactions s) ∧
    (∀ tx ∈ v.transactions,
      (tx ∈ getPendingTransactions s ∧ tx ∉ getExecutedTransactions s) ∨
      (tx ∉ getPendingTransactions s ∧ tx ∈ getExecutedTransactions s)) := by
  have hp : ∀ tx, tx ∈ getPendingTransactions s ↔
      tx ∈ v.transactions ∧ tx.status ≠ TransactionStatus.executed := by
    intro tx
    unfold getPendingTransactions
    rw [hv]
    simp [List.mem_filter]
  have he : ∀ tx, tx ∈ getExecutedTransactions s ↔
      tx ∈ v.transactions ∧ tx.status = TransactionStatus.executed := by
    intro tx
    unfold getExecutedTransactions
    rw [hv]
    simp [List.mem_filter]
  refine ⟨hp, he, ?_, ?_⟩
  · intro tx htx hf
    exact (hp tx).mpr ⟨htx, by simp [hf]⟩
  · intro tx htx
    by_cases hx : tx.status = TransactionStatus.executed
    · exact Or.inr ⟨fun hc => (((hp tx).mp hc).2) hx, (he tx).mpr ⟨htx, hx⟩⟩
    · exact Or.inl ⟨(hp tx).mpr ⟨htx, hx⟩, fun hc => hx (((he tx).mp hc).2)⟩

/-- Witness for C2 at the demo state: its single pending mock transaction. -/
theorem C2_witness :
    mockTransaction 0 ∈ getPendingTransactions demoState ↔
      mockTransaction 0 ∈ demoVault.transactions ∧
      (mockTransaction 0).status ≠ TransactionStatus.executed :=
  (C2_pending_executed_partition demoState demoVault rfl).1 (mockTransaction 0)

/-- C3: for a loaded vault with threshold at least 1 and an id that matches
no transaction in the vault, `getSignatureCount` returns 0 and
`isReadyToExecute` returns false. -/
theorem C3_unknown_id_neutral (s : MultisigState) (v : MultisigVault)
    (txId : String) (hv : s.vault = some v) (hth : 1 ≤ v.threshold)
    (hun : ∀ tx ∈ v.transactions, tx.id ≠ txId) :
    getSignatureCount s txId = 0 ∧ isReadyToExecute s txId = false := by
  have hfind : v.transactions.find? (fun t => t.id == txId) = none := by
    rw [List.find?_eq_none]
    intro tx htx
    simp [hun tx htx]
  have hget : getTransaction s txId = none := by
    unfold getTransaction
    rw [hv]
    exact hfind
  have h0 : getSignatureCount s txId = 0 := by
    unfold getSignatureCount
    rw [hget]
  refine ⟨h0, ?_⟩
  unfold isReadyToExecute
  rw [hv, h0]
  simp
  omega

/-- Witness for C3 at the demo state and an id absent from the vault. -/
theorem C3_witness :
    getSignatureCount demoState "txn-999" = 0 ∧
    isReadyToExecute demoState "txn-999" = false :=
  C3_unknown_id_neutral demoState demoVault "txn-999" rfl (by decide) (by decide)

/-- `hasUserSigned` when the user address is null: false. -/
theorem hasUserSigned_of_none (s : MultisigState) (txId : String)
    (hua : s.userAddress = none) : hasUserSigned s txId = false := by
  unfold hasUserSigned
  rw [hua]

/-- `hasUserSigned` when the user address is the empty string: false, by
JavaScript falsiness of the empty string. -/
theorem hasUserSigned_of_empty (s : MultisigState) (txId : String)
    (hua : s.userAddress = some "") : hasUserSigned s txId = false := by
  unfold hasUserSigned
  rw [hua]
  exact if_pos rfl

/-- `hasUserSigned` with a truthy user address reduces to the lookup over the
found transaction's signer snapshot. -/
theorem hasUserSigned_of_some (s : MultisigState) (txId ua : String)
    (hua : s.userAddress = some ua) (hne : ua ≠ "") :
    hasUserSigned s txId =
      (match getTransaction s txId with
       | none => false
       | some tx =>
         match tx.signers.find? (fun sg => sg.address == ua) with
         | none => false
         | some sg => sg.hasSigned) := by
  unfold hasUserSigned
  rw [hua]
  exact if_neg hne

/-- C4: with a loaded vault whose transactions carry pairwise-distinct signer
addresses (the snapshot of a signer set) and a current address supplied by
the identity layer, `hasUserSigned(id)` is true exactly when the address is
set, the transaction exists, and its signer entry for that address has
`hasSigned` true; in particular it is false when the address is null or the
id is unknown. -/
theorem C4_hasUserSigned_iff (s : MultisigState) (v : MultisigVault)
    (txId : String) (hv : s.vault = some v)
    (hid : ∃ ud, s.userAddress = stacksAddress ud)
    (hnd : ∀ tx ∈ v.transactions, (tx.signers.map (fun sg => sg.address)).Nodup) :
    (hasUserSigned s txId = true ↔
      ∃ a, s.userAddress = some a ∧
        ∃ tx, getTransaction s txId = some tx ∧
          ∃ sg, sg ∈ tx.signers ∧ sg.address = a ∧ sg.hasSigned = true) ∧
    (s.userAddress = none → hasUserSigned s txId = false) ∧
    (getTransaction s txId = none → hasUserSigned s txId = false) := by
  have hmem_of_get : ∀ tx, getTransaction s txId = some tx → tx ∈ v.transactions := by
    intro tx hget
    unfold getTransaction at hget
    rw [hv] at hget
    exact List.mem_of_find?_eq_some hget
  refine ⟨?_, ?_, ?_⟩
  · cases hua : s.userAddress with
    | none => simp [hasUserSigned_of_none s txId hua, hua]
    | some ua =>
      have hne : ua ≠ "" := by
        rcases hid with ⟨ud, hud⟩
        intro he
        exact stacksAddress_ne_some_empty ud (by rw [← hud, hua, he])
      rw [hasUserSigned_of_some s txId ua hua hne]
      cases hget : getTransaction s txId with
      | none => simp [hget]
      | some tx =>
        cases hfd : tx.signers.find? (fun sg => sg.address == ua) with
        | none =>
          simp only [hfd, Bool.false_eq_true, false_iff]
          rintro ⟨a, ha, tx2, hget2, sg, hsg, hsga, hsgn⟩
          cases Option.some.inj hget2
          cases Option.some.inj ha
          rw [List.find?_eq_none] at hfd
          exact absurd (by simp [hsga]) (hfd sg hsg)
        | some sg =>
          have hsga : sg.address = ua := by
            have := List.find?_some hfd
            simpa using this
          have hsgm : sg ∈ tx.signers := List.mem_of_find?_eq_some hfd
          simp only [hfd]
          constructor
          · intro hs
            exact ⟨ua, rfl, tx, rfl, sg, hsgm, hsga, hs⟩
          · rintro ⟨a, ha, tx2, hget2, sg2, hsg2, hsg2a, hsg2n⟩
            cases Option.some.inj hget2
            cases Option.some.inj ha
            have hfd2 : tx.signers.find? (fun x => x.address == sg2.address) = some sg2 :=
              find_key_of_mem_of_nodup (fun x => x.address) tx.signers sg2 hsg2
                (hnd tx (hmem_of_get tx hget))
            rw [hsg2a] at hfd2
            rw [hfd] at hfd2
            cases Option.some.inj hfd2
            exact hsg2n
  · intro hua
    exact hasUserSigned_of_none s txId hua
  · intro hget
    cases hua : s.userAddress with
    | none => exact hasUserSigned_of_none s txId hua
    | some ua =>
      by_cases he : ua = ""
      · exact hasUserSigned_of_empty s txId (he ▸ hua)
      · rw [hasUserSigned_of_some s txId ua hua he, hget]

/-- Witness for C4: the first mock signer has signed the mock transaction. -/
theorem C4_witness : hasUserSigned demoSignedState "txn-001" = true :=
  (C4_hasUserSigned_iff demoSignedState demoVault "txn-001" rfl
      ⟨demoUserData, by decide⟩ (by decide)).1.mpr
    ⟨"SP2RVXN8ZCJQY8ZCJQY8ZCJQY8ZCJQY8ZCJQY8Z", rfl,
     mockTransaction 0, by decide,
     ⟨"SP2RVXN8ZCJQY8ZCJQY8ZCJQY8ZCJQY8ZCJQY8Z", true⟩, by decide, rfl, rfl⟩

/-- C7: with a current address supplied by the identity layer, `isSigner` is
true exactly when a vault is loaded, the address is set, and the address is a
member of the vault's authorized signer list; it is false whenever the vault
or the address is null. -/
theorem C7_isSigner_iff (s : MultisigState)
    (hid : ∃ ud, s.userAddress = stacksAddress ud) :
    (isSigner s = true ↔
      ∃ v, s.vault = some v ∧ ∃ a, s.userAddress = some a ∧ a ∈ v.signers) ∧
    (s.vault = none → isSigner s = false) ∧
    (s.userAddress = none → isSigner s = false) := by
  have hnone_v : s.vault = none → isSigner s = false := by
    intro hv
    unfold isSigner
    rw [hv]
  have hnone_a : s.userAddress = none → isSigner s = false := by
    intro hua
    unfold isSigner
    rw [hua]
    cases s.vault <;> rfl
  refine ⟨?_, hnone_v, hnone_a⟩
  cases hv : s.vault with
  | none =>
    simp only [hnone_v hv, Bool.false_eq_true, false_iff]
    rintro ⟨v, hv2, _⟩
    exact Option.noConfusion hv2
  | some v =>
    cases hua : s.userAddress with
    | none =>
      simp only [hnone_a hua, Bool.false_eq_true, false_iff]
      rintro ⟨v2, hv2, a, ha, _⟩
      exact Option.noConfusion ha
    | some ua =>
      have hne : ua ≠ "" := by
        rcases hid with ⟨ud, hud⟩
        intro he
        exact stacksAddress_ne_some_empty ud (by rw [← hud, hua, he])
      have hred : isSigner s = v.signers.contains ua := by
        unfold isSigner
        rw [hv, hua]
        exact if_neg hne
      rw [hred]
      constructor
      · intro hc
        exact ⟨v, rfl, ua, rfl, by simpa using hc⟩
      · rintro ⟨v2, hv2, a, ha, hmem⟩
        cases Option.some.inj hv2
        cases Option.some.inj ha
        simpa using hmem

/-- Witness for C7: the demo signed-in user is an authorized signer. -/
theorem C7_witness : isSigner demoSignedState = true :=
  (C7_isSigner_iff demoSignedState ⟨demoUserData, by decide⟩).1.mpr
    ⟨demoVault, rfl, "SP2RVXN8ZCJQY8ZCJQY8ZCJQY8ZCJQY8ZCJQY8Z", rfl, by decide⟩

/-- An empty address takes the early-return branch: only the error field of
the state changes. -/
theorem fetchVault_empty (s : MultisigState) (now : Nat) :
    fetchVault s "" now = { s with error := some "Vault address is required" } := by
  simp [fetchVault, fetchVaultTrace, List.getLastD]

/-- A non-empty address takes the success branch: the mock vault is stored,
the loading flag ends false, and the error is cleared. -/
theorem fetchVault_success (s : MultisigState) (addr : String) (now : Nat)
    (h : addr ≠ "") :
    fetchVault s addr now =
      { s with vault := some (mockVaultData addr now)
               isLoading := false
               error := none } := by
  simp [fetchVault, fetchVaultTrace, h, List.getLastD]

/-- C5 counterexample: a plainly malformed, non-empty vault address is
accepted by `fetchVault` — no error is set and a (mock) vault is loaded for
it — so `fetchVault` does not fail on malformed addresses, only on the empty
one. -/
theorem C5_counterexample :
    "not-a-valid-account-address" ≠ "" ∧
    (fetchVault initState "not-a-valid-account-address" 0).error = none ∧
    (fetchVault initState "not-a-valid-account-address" 0).vault =
      some (mockVaultData "not-a-valid-account-address" 0) := by
  refine ⟨by decide, by decide, by decide⟩

/-- C5 amended: `fetchVault` fails (setting the required-address error and
leaving the vault unchanged) exactly when the address is empty; every
non-empty address, well-formed or not, is accepted and loads a vault. -/
theorem C5_empty_only_rejected (s : MultisigState) (addr : String) (now : Nat) :
    (addr = "" → (fetchVault s addr now).error = some "Vault address is required" ∧
      (fetchVault s addr now).vault = s.vault) ∧
    (addr ≠ "" → (fetchVault s addr now).error = none ∧
      (fetchVault s addr now).vault = some (mockVaultData addr now)) := by
  constructor
  · intro h
    subst h
    rw [fetchVault_empty]
    exact ⟨rfl, rfl⟩
  · intro h
    rw [fetchVault_success s addr now h]
    exact ⟨rfl, rfl⟩

/-- Witness for the amended C5 at the empty address. -/
theorem C5_witness :
    (fetchVault initState "" 0).error = some "Vault address is required" :=
  ((C5_empty_only_rejected initState "" 0).1 rfl).1

/-- C6 counterexample: two successive fetches of the same address at
different clock readings yield different transaction lists (the mock
transaction is stamped with `Date.now()`), so the fetched vault data is not
equal on all of address, signers, threshold, balance and transactions. -/
theorem C6_counterexample :
    Option.map (fun v => v.transactions) (fetchVault initState "SP-demo" 0).vault ≠
    Option.map (fun v => v.transactions)
      (fetchVault (fetchVault initState "SP-demo" 0) "SP-demo" 1).vault := by
  decide

/-- Transaction data with the `Date.now()` stamp removed, for comparing
fetches performed at different times. -/
def clearTimestamp (tx : MultisigTransaction) : MultisigTransaction :=
  { tx with timestamp := 0 }

/-- C6 amended: two successive `fetchVault` calls for the same non-empty
address both load a vault, and the two vaults agree on address, signers,
threshold, balance, and on their transactions up to the `Date.now()`
timestamp stamped at fetch time. -/
theorem C6_idempotent_up_to_timestamp (s : MultisigState) (addr : String)
    (t1 t2 : Nat) (h : addr ≠ "") :
    ((fetchVault s addr t1).vault).isSome = true ∧
    ((fetchVault (fetchVault s addr t1) addr t2).vault).isSome = true ∧
    Option.map (fun v => v.address) (fetchVault s addr t1).vault =
      Option.map (fun v => v.address)
        (fetchVault (fetchVault s addr t1) addr t2).vault ∧
    Option.map (fun v => v.signers) (fetchVault s addr t1).vault =
      Option.map (fun v => v.signers)
        (fetchVault (fetchVault s addr t1) addr t2).vault ∧
    Option.map (fun v => v.threshold) (fetchVault s addr t1).vault =
      Option.map (fun v => v.threshold)
        (fetchVault (fetchVault s addr t1) addr t2).vault ∧
    Option.map (fun v => v.balance) (fetchVault s addr t1).vault =
      Option.map (fun v => v.balance)
        (fetchVault (fetchVault s addr t1) addr t2).vault ∧
    Option.map (fun v => v.transactions.map clearTimestamp)
        (fetchVault s addr t1).vault =
      Option.map (fun v => v.transactions.map clearTimestamp)
        (fetchVault (fetchVault s addr t1) addr t2).vault := by
  rw [fetchVault_success s addr t1 h,
      fetchVault_success _ addr t2 h]
  refine ⟨rfl, rfl, rfl, rfl, rfl, rfl, rfl⟩

/-- Witness for the amended C6 at a concrete address and two clock values. -/
theorem C6_witness :
    Option.map (fun v => v.transactions.map clearTimestamp)
        (fetchVault initState "SP-demo" 0).vault =
      Option.map (fun v => v.transactions.map clearTimestamp)
        (fetchVault (fetchVault initState "SP-demo" 0) "SP-demo" 1).vault :=
  (C6_idempotent_up_to_timestamp initState "SP-demo" 0 1 (by decide)).2.2.2.2.2.2

/-- C8: every vault loaded by a successful (non-empty-address) `fetchVault`
call has the requested address and satisfies the vault invariant
`1 ≤ threshold ≤ |signers|`. -/
theorem C8_fetched_vault_invariant (s : MultisigState) (addr : String)
    (now : Nat) (v : MultisigVault) (h : addr ≠ "")
    (hv : (fetchVault s addr now).vault = some v) :
    v.address = addr ∧ 1 ≤ v.threshold ∧ v.threshold ≤ v.signers.length := by
  rw [fetchVault_success s addr now h] at hv
  cases Option.some.inj hv
  exact ⟨rfl, (by decide : (1:Nat) ≤ 2), (by decide : (2:Nat) ≤ 3)⟩

/-- Witness for C8 at the demo fetch. -/
theorem C8_witness :
    demoVault.address = "SP-demo" ∧ 1 ≤ demoVault.threshold ∧
      demoVault.threshold ≤ demoVault.signers.length :=
  C8_fetched_vault_invariant initState "SP-demo" 0 demoVault (by decide) (by decide)

/-- A wallet user whose testnet address field is present but holds the empty
string, alongside a non-empty mainnet address. -/
def emptyTestnetUser : Option StacksUserData :=
  some ⟨some ⟨some ⟨some "SP2MAINNETADDRESS", some ""⟩⟩⟩

/-- C9 counterexample: with a testnet stx address present (the empty string)
and a mainnet address also present, the hook's address is the mainnet one,
not the present testnet one — JavaScript `||` treats the empty string as
absent. -/
theorem C9_counterexample :
    stacksAddress emptyTestnetUser = some "SP2MAINNETADDRESS" ∧
    stacksAddress emptyTestnetUser ≠ some "" := by
  refine ⟨by decide, by decide⟩

/-- C9 amended: the hook's address prefers a present non-empty testnet
address over mainnet; with no testnet entry or an empty one, it equals a
present non-empty mainnet address; otherwise it is null (a present but empty
address field is treated as absent). -/
theorem C9_address_preference (u : StacksUserData) (p : StacksUserProfile)
    (sa : StxAddress) (hp : u.profile = some p) (hsa : p.stxAddress = some sa) :
    (∀ t, sa.testnet = some t → t ≠ "" → stacksAddress (some u) = some t) ∧
    ((sa.testnet = none ∨ sa.testnet = some "") →
      ∀ m, sa.mainnet = some m → m ≠ "" → stacksAddress (some u) = some m) ∧
    ((sa.testnet = none ∨ sa.testnet = some "") →
      (sa.mainnet = none ∨ sa.mainnet = some "") →
      stacksAddress (some u) = none) := by
  have hred : stacksAddress (some u) = jsOr sa.testnet (jsOr sa.mainnet none) := by
    simp only [stacksAddress, hp, hsa]
  refine ⟨?_, ?_, ?_⟩
  · intro t ht hne
    rw [hred, ht]
    simp [jsOr, hne]
  · intro hT m hm hmne
    rcases hT with hT | hT <;> rw [hred, hT, hm] <;> simp [jsOr, hmne]
  · intro hT hM
    rcases hT with hT | hT <;> rcases hM with hM | hM <;>
      rw [hred, hT, hM] <;> simp [jsOr]

/-- The stx address record of the demo wallet user: both networks present
and non-empty. -/
def demoStx : StxAddress := ⟨some "SPmainnetDemo", some "STtestnetDemo"⟩

/-- The profile wrapping `demoStx`. -/
def demoProfile : StacksUserProfile := ⟨some demoStx⟩

/-- The user data wrapping `demoProfile`. -/
def demoUser : StacksUserData := ⟨some demoProfile⟩

/-- Witness for the amended C9: testnet wins over a present mainnet. -/
theorem C9_witness : stacksAddress (some demoUser) = some "STtestnetDemo" :=
  (C9_address_preference demoUser demoProfile demoStx rfl rfl).1
    "STtestnetDemo" rfl (by decide)

/-- C10: a `fetchVault` call with the empty address produces exactly one
state update, which only sets the error message; across the whole call the
vault, the loading flag and the user address are untouched. -/
theorem C10_empty_address_atomic (s : MultisigState) (now : Nat) :
    fetchVaultTrace s "" now = [{ s with error := some "Vault address is required" }] ∧
    (∀ s2 ∈ fetchVaultTrace s "" now,
      s2.vault = s.vault ∧ s2.isLoading = s.isLoading ∧
      s2.userAddress = s.userAddress ∧
      s2.error = some "Vault address is required") ∧
    fetchVault s "" now = { s with error := some "Vault address is required" } := by
  refine ⟨by simp [fetchVaultTrace], ?_, fetchVault_empty s now⟩
  intro s2 hs2
  simp [fetchVaultTrace] at hs2
  subst hs2
  exact ⟨rfl, rfl, rfl, rfl⟩

/-- Witness for C10 at the initial state. -/
theorem C10_witness :
    fetchVault initState "" 0 =
      { initState with error := some "Vault address is required" } :=
  (C10_empty_address_atomic initState 0).2.2
